import Mathlib

/-!
Verification of the ibsim simulated-transport module (`rdma/sim.py`).

The development shallowly embeds the module's data model and operations:

* the three fixed-layout wire codecs (`_struct_ctl`, `_struct_info`,
  `_struct_request`) as byte-list encoders and decoders;
* the per-port TTL-gated attribute cache (`SimEndPort._get`), GID
  derivation (`SimEndPort.gids`), pkey lookup, and the administrative
  path (`SimEndPort.sa_path`) as explicit state-passing functions that
  also report the control calls they issue;
* the datagram transactor (`SimUMAD.sendto`, `SimUMAD.recvfrom`,
  `SimUMAD._execute`) as a fuel-indexed state machine driven by an
  environment supplying clock readings and poll outcomes, producing an
  event trace (sends, receive attempts, deadline updates, trace-hook
  invocations).

Bytes are `Nat`s (the code never relies on byte-range wraparound except
where `% 256` appears explicitly); wall-clock instants are integers in
an arbitrary tick granularity.  External collaborators (the IBA
constants and structures, the `IBPath` addressing type and the
match-key functions of the transactor contract) are not part of the
source file; they are modelled from the specification where needed and
marked as such.
-/

/-- Byte strings on the wire: lists of byte values. -/
abbrev Bytes := List Nat

/-! ### Little/big endian integer codecs

`struct` format codes `L` (4 bytes), `H` (2 bytes), `Q` (8 bytes).  The
control family (`=LLLL64s`, `=LLL32s`) uses native byte order, modelled
here as little-endian (the x86 hosts the module targets); the data
family (`>HHLLLQ256s`) is big-endian by format. -/

/-- Little-endian byte encoding of `v` on `w` bytes. -/
def leBytes : Nat → Nat → Bytes
  | 0, _ => []
  | w + 1, v => v % 256 :: leBytes w (v / 256)

/-- Little-endian byte decoding. -/
def leVal : Bytes → Nat
  | [] => 0
  | b :: bs => b + 256 * leVal bs

/-- Big-endian byte encoding of `v` on `w` bytes. -/
def beBytes (w v : Nat) : Bytes := (leBytes w v).reverse

/-- Big-endian byte decoding. -/
def beVal (b : Bytes) : Nat := leVal b.reverse

/-- `struct`'s `Ns` fixed-size string slot: truncate to `n` bytes and
pad with zero bytes up to `n`. -/
def padTrunc (n : Nat) (s : Bytes) : Bytes :=
  s.take n ++ List.replicate (n - s.length) 0

/-! ### Wire message constants and codecs (`sim.py` lines 19-35) -/

def SIM_MAGIC : Nat := 0xdeadbeef
def SIM_CTL_ERROR : Nat := 0
def SIM_CTL_CONNECT : Nat := 1
def SIM_CTL_DISCONNECT : Nat := 2
def SIM_CTL_GET_PORT : Nat := 3
def SIM_CTL_GET_VENDOR : Nat := 4
def SIM_CTL_GET_GID : Nat := 5
def SIM_CTL_GET_GUID : Nat := 6
def SIM_CTL_GET_NODEINFO : Nat := 7
def SIM_CTL_GET_PORTINFO : Nat := 8
def SIM_CTL_SET_ISSM : Nat := 9
def SIM_CTL_GET_PKEYS : Nat := 10

/-- `_struct_ctl = struct.Struct('=LLLL64s')` — pack (sim_ctl). -/
def structCtlPack (magic client_id ty len : Nat) (data : Bytes) : Bytes :=
  leBytes 4 magic ++ leBytes 4 client_id ++ leBytes 4 ty ++ leBytes 4 len ++
    padTrunc 64 data

/-- `_struct_ctl` — unpack: four native 32-bit words and a 64-byte slot. -/
def structCtlUnpack (b : Bytes) : Option (Nat × Nat × Nat × Nat × Bytes) :=
  if b.length = 80 then
    let r1 := b.drop 4
    let r2 := r1.drop 4
    let r3 := r2.drop 4
    some (leVal (b.take 4), leVal (r1.take 4), leVal (r2.take 4),
          leVal (r3.take 4), r3.drop 4)
  else none

/-- `_struct_info = struct.Struct('=LLL32s')` — pack (sim_client_info). -/
def structInfoPack (id qp issm : Nat) (nodeid : Bytes) : Bytes :=
  leBytes 4 id ++ leBytes 4 qp ++ leBytes 4 issm ++ padTrunc 32 nodeid

/-- `_struct_info` — unpack: three native 32-bit words and a 32-byte slot. -/
def structInfoUnpack (b : Bytes) : Option (Nat × Nat × Nat × Bytes) :=
  if b.length = 44 then
    let r1 := b.drop 4
    let r2 := r1.drop 4
    some (leVal (b.take 4), leVal (r1.take 4), leVal (r2.take 4), r2.drop 4)
  else none

/-- `_struct_request = struct.Struct('>HHLLLQ 256s')` — pack (sim_request). -/
def structRequestPack (dlid slid dqpn sqpn status length : Nat) (pkt : Bytes) :
    Bytes :=
  beBytes 2 dlid ++ beBytes 2 slid ++ beBytes 4 dqpn ++ beBytes 4 sqpn ++
    beBytes 4 status ++ beBytes 8 length ++ padTrunc 256 pkt

/-- `_struct_request` — unpack: big-endian 16/16/32/32/32/64-bit fields and a
256-byte slot. -/
def structRequestUnpack (b : Bytes) :
    Option (Nat × Nat × Nat × Nat × Nat × Nat × Bytes) :=
  if b.length = 280 then
    let r1 := b.drop 2
    let r2 := r1.drop 2
    let r3 := r2.drop 4
    let r4 := r3.drop 4
    let r5 := r4.drop 4
    some (beVal (b.take 2), beVal (r1.take 2), beVal (r2.take 4),
          beVal (r3.take 4), beVal (r4.take 4), beVal (r5.take 8), r5.drop 8)
  else none

/-! ### External collaborators (modelled from the spec)

`rdma.IBA`, `rdma.path.IBPath` and the transactor base class are not in
the verified source file; the spec treats them as external interfaces. -/

/-- Modelled from the spec: the external addressing/path type ("an external
addressing/path type carrying destination/source LID, queue-pair numbers,
partition key index, timeout, and retry count").  Field names follow the
attribute names the source reads/writes (`DLID`, `SLID`, `dqpn`, `sqpn` are
read by `sendto`/`sa_path`; `DQPN`, `SQPN` are the attribute names
`recvfrom` assigns). -/
structure IBPath where
  DLID : Nat := 0
  SLID : Nat := 0
  dqpn : Nat := 0
  sqpn : Nat := 0
  DQPN : Nat := 0
  SQPN : Nat := 0
  SL : Nat := 0
  qkey : Nat := 0
  pkey_index : Nat := 0
  packet_life_time : Nat := 0
  mad_timeout : Int := 0
  retries : Nat := 0
deriving DecidableEq, Repr, Inhabited

/-- Modelled from the spec: the cached port attribute set ("LID, LMC, state,
physical state, link width/speed, capability mask, master-SM LID/SL, GID
prefix") of the external `IBA.SMPPortInfo` structure.  The last field models
the attribute called GIDPrefix in the source. -/
structure PortInfo where
  LID : Nat := 0
  LMC : Nat := 0
  portState : Nat := 0
  portPhysicalState : Nat := 0
  linkWidthActive : Nat := 0
  linkSpeedActive : Nat := 0
  capabilityMask : Nat := 0
  masterSMLID : Nat := 0
  masterSMSL : Nat := 0
  gidPfx : Nat := 0
deriving DecidableEq, Repr, Inhabited

/-- Names of the cached port attributes, as passed to `SimEndPort._get`. -/
inductive PortField where
  | LID | LMC | portState | portPhysicalState
  | linkWidthActive | linkSpeedActive | capabilityMask
  | masterSMLID | masterSMSL | gidPfx
deriving DecidableEq, Repr

/-- `getattr(self._port_info, field)`. -/
def PortInfo.get (pi : PortInfo) : PortField → Nat
  | .LID => pi.LID
  | .LMC => pi.LMC
  | .portState => pi.portState
  | .portPhysicalState => pi.portPhysicalState
  | .linkWidthActive => pi.linkWidthActive
  | .linkSpeedActive => pi.linkSpeedActive
  | .capabilityMask => pi.capabilityMask
  | .masterSMLID => pi.masterSMLID
  | .masterSMSL => pi.masterSMSL
  | .gidPfx => pi.gidPfx

/-- One control call as observed on the control socket: opcode and request
payload (`conn._ctl(type, data)`). -/
structure CtlCall where
  opcode : Nat
  payload : Bytes
deriving DecidableEq, Repr

/-- The environment a port object runs against: the session's control-call
primitive (opcode and request payload to reply payload slot) and the
external `IBA.SMPPortInfo` decoder applied to that reply
(`unpack_from`, modelled from the spec as an opaque total decoder). -/
structure SimCtx where
  ctl : Nat → Bytes → Bytes
  unpackPortInfo : Bytes → PortInfo

/-- Modelled from the spec: IBA constants used by `sa_path` / `gids`.
`PKEY_DEFAULT` is the full-membership well-known partition key,
`PKEY_PARTIAL_DEFAULT` the partial-membership variant,
`GID_DEFAULT_PFX` the link-local default GID prefix (`GID_DEFAULT_PREFIX`
in the source), `IB_DEFAULT_QP1_QKEY` the well-known default queue key. -/
def PKEY_DEFAULT : Nat := 0xFFFF

/-- Modelled from the spec: partial-membership well-known partition key. -/
def PKEY_PARTIAL_DEFAULT : Nat := 0x7FFF

/-- Modelled from the spec: link-local default GID prefix value. -/
def GID_DEFAULT_PFX : Nat := 0xFE80000000000000

/-- Modelled from the spec: well-known default QP1 queue key. -/
def IB_DEFAULT_QP1_QKEY : Nat := 0x80010000

/-- A 16-byte global identifier as built by `IBA.GID(prefix, guid=...)`:
a prefix value and an 8-byte interface identifier. -/
structure GID where
  pfx : Nat
  guid : Bytes
deriving DecidableEq, Repr

/-- Mutable state of a `SimEndPort` (`__init__`, lines 131-137, plus the
lazily created caches `_cached_sa_path` / `_cached_subnet_timeout`). -/
structure EndPortSt where
  port_id : Nat
  port_info : PortInfo
  port_info_age : Int
  pkeys : List Nat
  gidsCache : Option (List GID)
  cachedSaPath : Option IBPath
  cachedSubnetTimeout : Option Nat
deriving DecidableEq, Repr

/-- `SimEndPort.__init__`: fresh cache (`SMPPortInfo()` zero-initialised,
age 0), `pkeys = (0xFFFF,)`, `_gids = None`, no memoized sa-path. -/
def initEndPort (pid : Nat) : EndPortSt :=
  { port_id := pid
    port_info := {}
    port_info_age := 0
    pkeys := [0xFFFF]
    gidsCache := none
    cachedSaPath := none
    cachedSubnetTimeout := none }

/-- `SimEndPort._get` (lines 139-146): TTL-gated cached attribute read.
Returns the attribute value, the updated state and the list of control
calls issued (`now` is the `time.time()` reading). -/
def SimEndPort.get (cx : SimCtx) (st : EndPortSt) (now : Int)
    (field : PortField) : Nat × EndPortSt × List CtlCall :=
  if st.port_info_age + 1 < now then
    let payload : Bytes := [st.port_id % 256]
    let info := cx.unpackPortInfo (cx.ctl SIM_CTL_GET_PORTINFO payload)
    (info.get field,
     { st with port_info := info, port_info_age := now },
     [⟨SIM_CTL_GET_PORTINFO, payload⟩])
  else
    (st.port_info.get field, st, [])

/-- `SimEndPort.gids` (lines 192-208): memoized GID tuple derivation.
`nodeGuid` is the 8-byte packed form of `parent.node_guid`
(`node_guid.pack_into(guid)`); the interface identifier copies it and
overwrites byte 7 with the port index. -/
def SimEndPort.gids (cx : SimCtx) (nodeGuid : Bytes) (st : EndPortSt)
    (now : Int) : List GID × EndPortSt × List CtlCall :=
  match st.gidsCache with
  | some g => (g, st, [])
  | none =>
    let r := SimEndPort.get cx st now PortField.gidPfx
    let pfxVal := r.1
    let st1 := r.2.1
    let guid := nodeGuid.take 7 ++ [st.port_id % 256]
    let default_gid : GID := ⟨GID_DEFAULT_PFX, guid⟩
    let gs := if pfxVal = GID_DEFAULT_PFX then [default_gid]
              else [⟨pfxVal, guid⟩, default_gid]
    (gs, { st1 with gidsCache := some gs }, r.2.2)

/-- `list.index` as used by `SimEndPort.pkey_index` (line 226): position of
the first occurrence, `none` standing for the `ValueError` raise. -/
def pkeyIndexOf (l : List Nat) (k : Nat) : Option Nat :=
  match l with
  | [] => none
  | x :: xs => if x = k then some 0 else (pkeyIndexOf xs k).map (· + 1)

/-- Error kinds surfaced by the port object; `configurationError` stands for
the `rdma.RDMAError("Could not find the SA default PKey")` raise (the
spec's `ConfigurationError`, "no administrative partition key"). -/
inductive SimErr where
  | configurationError
deriving DecidableEq, Repr

/-- `SimEndPort.sa_path` (lines 228-252): memoized administrative path.
Tries the full-membership well-known pkey first, then the
partial-membership one; on success builds the path from the (possibly
refreshed) cached attributes and memoizes it.  Returns the path, the
updated state, and the control calls issued. -/
def SimEndPort.sa_path (cx : SimCtx) (st : EndPortSt) (now : Int) :
    Except SimErr (IBPath × EndPortSt × List CtlCall) :=
  match st.cachedSaPath with
  | some p => .ok (p, st, [])
  | none =>
    match (pkeyIndexOf st.pkeys PKEY_DEFAULT).orElse
        (fun _ => pkeyIndexOf st.pkeys PKEY_PARTIAL_DEFAULT) with
    | none => .error .configurationError
    | some idx =>
      let r1 := SimEndPort.get cx st now PortField.masterSMLID
      let r2 := SimEndPort.get cx r1.2.1 now PortField.LID
      let r3 := SimEndPort.get cx r2.2.1 now PortField.masterSMSL
      let st3 := r3.2.1
      let p : IBPath :=
        { DLID := r1.1, SLID := r2.1, SL := r3.1, dqpn := 1, sqpn := 1,
          qkey := IB_DEFAULT_QP1_QKEY, pkey_index := idx,
          packet_life_time := st3.cachedSubnetTimeout.getD 18 }
      .ok (p, { st3 with cachedSaPath := some p }, r1.2.2 ++ r2.2.2 ++ r3.2.2)

/-! ### Datagram transactor (`SimUMAD`, lines 258-324)

The transactor is driven by an environment supplying the monotonic clock
readings (`rdma.tools.clock_monotonic()`, one entry per read) and the
poll/recv outcomes of the shared data socket (one entry per executed
`poll`; `none` models a poll timeout).  Every run produces an event
trace recording sends, receive attempts (with the deadline used),
deadline updates, and trace-hook invocations. -/

/-- Environment of one transactor run. -/
structure ExecEnv where
  clock : Nat → Int
  poll : Nat → Option Bytes

/-- Modelled from the spec: the external transactor-contract pieces —
match-key derivation for outgoing buffers (`_get_reply_match_key`) and
received payloads (`_get_match_key`), and whether a trace hook is
installed (`trace_func is not None`). -/
structure TransCtx where
  replyKey : Bytes → Nat
  matchKey : Bytes → Nat
  hasTrace : Bool

/-- Modelled from the spec: the "unexpected reply" classification tag
(`rdma.madtransactor.TRACE_UNEXPECTED`); the tag value is opaque. -/
def TRACE_UNEXPECTED : Nat := 1

/-- Observable events of a transactor run. -/
inductive Ev where
  | send (req : Bytes)
  | recvAt (wakeat : Int)
  | setExpire (now expire : Int)
  | traceHook (kind : Nat) (pkt : Bytes)
deriving DecidableEq, Repr

/-- Run state: next clock-read index, next poll index, event trace. -/
structure ExecSt where
  ci : Nat
  pi : Nat
  tr : List Ev
deriving DecidableEq, Repr

/-- Failures of the embedded run: a malformed datagram
(`struct.error` on unpack) or fuel exhaustion of the embedding. -/
inductive ExecErr where
  | decodeFail
  | outOfFuel
deriving DecidableEq, Repr

/-- The datagram built by `SimUMAD.sendto` (lines 281-285):
`_struct_request.pack(path.DLID, path.SLID, path.dqpn, path.sqpn, 0,
len(buf), str(buf))`. -/
def sendtoReq (buf : Bytes) (path : IBPath) : Bytes :=
  structRequestPack path.DLID path.SLID path.dqpn path.sqpn 0 buf.length buf

/-- Per-instance transactor state (`_tid`, the 32-bit transaction
counter). -/
structure SimUMADSt where
  tid : Nat
deriving DecidableEq, Repr

/-- `SimUMAD.sendto`: builds and transmits the data envelope; the
transactor state is untouched. -/
def SimUMAD.sendto (st : SimUMADSt) (buf : Bytes) (path : IBPath) :
    SimUMADSt × Bytes :=
  (st, sendtoReq buf path)

/-- `SimUMAD._get_new_TID` (lines 268-270): 32-bit wrapping increment. -/
def SimUMAD.get_new_TID (st : SimUMADSt) : Nat × SimUMADSt :=
  let t := (st.tid + 1) % (1 <<< 32)
  (t, { tid := t })

/-- `SimUMAD.recvfrom(wakeat)` (lines 287-299): compute the remaining
time; on a non-positive timeout or an empty poll return no data;
otherwise receive one datagram, decode the data envelope and build the
reply path from its LID and QPN fields. -/
def SimUMAD.recvfrom (env : ExecEnv) (wakeat : Int) (st : ExecSt) :
    Except ExecErr (Option (Bytes × IBPath)) × ExecSt :=
  let now := env.clock st.ci
  let st1 : ExecSt :=
    { st with ci := st.ci + 1, tr := st.tr ++ [Ev.recvAt wakeat] }
  if wakeat - now ≤ 0 then (.ok none, st1)
  else
    match env.poll st1.pi with
    | none => (.ok none, { st1 with pi := st1.pi + 1 })
    | some resp =>
      let st2 := { st1 with pi := st1.pi + 1 }
      match structRequestUnpack resp with
      | none => (.error .decodeFail, st2)
      | some (dlid, slid, dqpn, sqpn, _status, _length, pkt) =>
        (.ok (some (pkt,
           { DLID := dlid, SLID := slid, DQPN := dqpn, SQPN := sqpn })), st2)

/-- The retry/match loop of `SimUMAD._execute` (lines 309-324), indexed
by fuel.  Each iteration: receive against the current deadline; on no
data either give up (budget exhausted) or resend in send-only mode and
recompute the deadline from the current clock; on data return it if the
match key agrees, otherwise invoke the trace hook (when installed) and
keep waiting on the same deadline. -/
def executeLoop (env : ExecEnv) (cx : TransCtx) (buf : Bytes) (path : IBPath)
    (rmatch : Nat) :
    Nat → Nat → Int → ExecSt →
      Except ExecErr (Option (Bytes × IBPath)) × ExecSt
  | 0, _, _, st => (.error .outOfFuel, st)
  | fuel + 1, retries, expire, st =>
    match SimUMAD.recvfrom env expire st with
    | (.error e, st1) => (.error e, st1)
    | (.ok none, st1) =>
      if retries = 0 then (.ok none, st1)
      else
        let st2 := { st1 with tr := st1.tr ++ [Ev.send (sendtoReq buf path)] }
        let now := env.clock st2.ci
        let expire2 := path.mad_timeout + now
        let st3 := { st2 with
          ci := st2.ci + 1,
          tr := st2.tr ++ [Ev.setExpire now expire2] }
        executeLoop env cx buf path rmatch fuel (retries - 1) expire2 st3
    | (.ok (some ret), st1) =>
      if rmatch = cx.matchKey ret.1 then (.ok (some ret), st1)
      else
        let st2 := if cx.hasTrace
          then { st1 with
                 tr := st1.tr ++ [Ev.traceHook TRACE_UNEXPECTED ret.1] }
          else st1
        executeLoop env cx buf path rmatch fuel retries expire st2

/-- `SimUMAD._execute(buf, path, sendOnly)` (lines 301-324): send; if
send-only stop; otherwise derive the expected match key, set the
deadline to `path.mad_timeout` past the current clock and run the
retry/match loop with `path.retries` budget. -/
def SimUMAD.execute (env : ExecEnv) (cx : TransCtx) (buf : Bytes)
    (path : IBPath) (sendOnly : Bool) (fuel : Nat) (st : ExecSt) :
    Except ExecErr (Option (Bytes × IBPath)) × ExecSt :=
  let st1 := { st with tr := st.tr ++ [Ev.send (sendtoReq buf path)] }
  if sendOnly then (.ok none, st1)
  else
    let rmatch := cx.replyKey buf
    let now := env.clock st1.ci
    let expire := path.mad_timeout + now
    let st2 := { st1 with
      ci := st1.ci + 1,
      tr := st1.tr ++ [Ev.setExpire now expire] }
    executeLoop env cx buf path rmatch fuel path.retries expire st2

/-- Number of send attempts recorded in a trace. -/
def countSends (tr : List Ev) : Nat :=
  tr.countP fun e => match e with | Ev.send _ => true | _ => false

/-- Number of trace-hook invocations recorded in a trace. -/
def countHooks (tr : List Ev) : Nat :=
  tr.countP fun e => match e with | Ev.traceHook _ _ => true | _ => false

/-- The event trace produced by the retry loop when every receive attempt
comes back empty, starting with budget `r`, clock-read index `i` and
deadline `e`: one receive attempt per iteration, and before each of the
`r` retries a resend followed by a deadline recomputation from the clock
value read at that moment. -/
def noReplyTrace (T : Int) (clock : Nat → Int) (req : Bytes) :
    Nat → Nat → Int → List Ev
  | 0, _, e => [Ev.recvAt e]
  | r + 1, i, e =>
    Ev.recvAt e :: Ev.send req ::
      Ev.setExpire (clock (i + 1)) (T + clock (i + 1)) ::
      noReplyTrace T clock req r (i + 2) (T + clock (i + 1))

/-! ### Concrete fixtures used by witnesses and counterexamples -/

/-- A trivial control environment: empty reply payloads, zero decoder. -/
def cxW : SimCtx := ⟨fun _ _ => [], fun _ => {}⟩

/-- A data-socket environment whose every datagram carries envelope
status `s` (all other fields fixed): exhibits that `recvfrom` discards
the status field. -/
def envStatus (s : Nat) : ExecEnv :=
  ⟨fun _ => 0, fun _ => some (structRequestPack 1 2 3 4 s 1 [9])⟩

/-- An environment that never yields data (every poll times out). -/
def envSilent : ExecEnv := ⟨fun _ => 0, fun _ => none⟩

/-- An environment delivering first a datagram whose payload starts with
byte 5, then datagrams whose payload starts with byte 7. -/
def envTwo : ExecEnv :=
  ⟨fun _ => 0, fun n =>
    if n = 0 then some (structRequestPack 1 2 3 4 0 1 [5])
    else some (structRequestPack 1 2 3 4 0 1 [7])⟩

/-- Transactor contract fixture: expected reply key 7, match key = first
payload byte, trace hook installed. -/
def cxTrans : TransCtx := ⟨fun _ => 7, fun b => b.headD 0, true⟩

/-- Transactor contract fixture with no trace hook installed. -/
def cxTransNone : TransCtx := ⟨fun _ => 0, fun _ => 0, false⟩

/-- Path fixture for transactor witnesses: timeout 5, retry budget 2. -/
def pathW : IBPath :=
  { DLID := 1, SLID := 2, dqpn := 3, sqpn := 4, mad_timeout := 5,
    retries := 2 }


/-! ### Basic codec lemmas -/

theorem leBytes_length (w v : Nat) : (leBytes w v).length = w := by
  induction w generalizing v with
  | zero => rfl
  | succ w ih => simp [leBytes, ih]

theorem beBytes_length (w v : Nat) : (beBytes w v).length = w := by
  simp [beBytes, leBytes_length]

theorem leVal_leBytes (w v : Nat) (h : v < 256 ^ w) : leVal (leBytes w v) = v := by
  induction w generalizing v with
  | zero =>
    simp [leBytes, leVal]
    omega
  | succ w ih =>
    have hdiv : v / 256 < 256 ^ w := by
      rw [Nat.div_lt_iff_lt_mul (by norm_num : 0 < 256)]
      calc v < 256 ^ (w + 1) := h
      _ = 256 ^ w * 256 := by ring
    simp only [leBytes, leVal, ih (v / 256) hdiv]
    omega

theorem beVal_beBytes (w v : Nat) (h : v < 256 ^ w) : beVal (beBytes w v) = v := by
  simp [beVal, beBytes, List.reverse_reverse, leVal_leBytes w v h]

theorem padTrunc_length (n : Nat) (s : Bytes) : (padTrunc n s).length = n := by
  simp [padTrunc]
  omega

theorem padTrunc_of_le (n : Nat) (s : Bytes) (h : s.length ≤ n) :
    padTrunc n s = s ++ List.replicate (n - s.length) 0 := by
  simp [padTrunc, List.take_of_length_le h]

/-- Splitting a concatenation at the length of its head part. -/
theorem take_len_append (l m : Bytes) (n : Nat) (h : l.length = n) :
    (l ++ m).take n = l := by
  subst h
  simp

/-- Dropping the head part of a concatenation. -/
theorem drop_len_append (l m : Bytes) (n : Nat) (h : l.length = n) :
    (l ++ m).drop n = m := by
  subst h
  simp

/-! ### Codec round-trip lemmas -/

theorem structCtl_roundtrip (m c t l : Nat) (d : Bytes)
    (hm : m < 2 ^ 32) (hc : c < 2 ^ 32) (ht : t < 2 ^ 32) (hl : l < 2 ^ 32)
    (hd : d.length ≤ 64) :
    structCtlUnpack (structCtlPack m c t l d) =
      some (m, c, t, l, d ++ List.replicate (64 - d.length) 0) := by
  have hm4 : m < 256 ^ 4 := by calc m < 2 ^ 32 := hm
                                 _ = 256 ^ 4 := by norm_num
  have hc4 : c < 256 ^ 4 := by calc c < 2 ^ 32 := hc
                                 _ = 256 ^ 4 := by norm_num
  have ht4 : t < 256 ^ 4 := by calc t < 2 ^ 32 := ht
                                 _ = 256 ^ 4 := by norm_num
  have hl4 : l < 256 ^ 4 := by calc l < 2 ^ 32 := hl
                                 _ = 256 ^ 4 := by norm_num
  have hlen : (structCtlPack m c t l d).length = 80 := by
    simp [structCtlPack, leBytes_length, padTrunc_length]
  simp only [structCtlUnpack, hlen, if_true, structCtlPack, if_pos,
    List.append_assoc]
  rw [drop_len_append _ _ 4 (leBytes_length 4 m)]
  rw [drop_len_append _ _ 4 (leBytes_length 4 c)]
  rw [drop_len_append _ _ 4 (leBytes_length 4 t)]
  rw [take_len_append _ _ 4 (leBytes_length 4 m)]
  rw [take_len_append _ _ 4 (leBytes_length 4 c)]
  rw [take_len_append _ _ 4 (leBytes_length 4 t)]
  rw [take_len_append _ _ 4 (leBytes_length 4 l)]
  rw [drop_len_append _ _ 4 (leBytes_length 4 l)]
  rw [leVal_leBytes 4 m hm4, leVal_leBytes 4 c hc4, leVal_leBytes 4 t ht4,
      leVal_leBytes 4 l hl4, padTrunc_of_le 64 d hd]
  rw [if_pos (by simp [leBytes_length]; omega)]

theorem structInfo_roundtrip (id qp issm : Nat) (nodeid : Bytes)
    (hid : id < 2 ^ 32) (hqp : qp < 2 ^ 32) (hissm : issm < 2 ^ 32)
    (hn : nodeid.length ≤ 32) :
    structInfoUnpack (structInfoPack id qp issm nodeid) =
      some (id, qp, issm, nodeid ++ List.replicate (32 - nodeid.length) 0) := by
  have hid4 : id < 256 ^ 4 := by calc id < 2 ^ 32 := hid
                                   _ = 256 ^ 4 := by norm_num
  have hqp4 : qp < 256 ^ 4 := by calc qp < 2 ^ 32 := hqp
                                   _ = 256 ^ 4 := by norm_num
  have hissm4 : issm < 256 ^ 4 := by calc issm < 2 ^ 32 := hissm
                                       _ = 256 ^ 4 := by norm_num
  have hlen : (structInfoPack id qp issm nodeid).length = 44 := by
    simp [structInfoPack, leBytes_length, padTrunc_length]
  simp only [structInfoUnpack, hlen, if_true, structInfoPack, if_pos,
    List.append_assoc]
  rw [drop_len_append _ _ 4 (leBytes_length 4 id)]
  rw [drop_len_append _ _ 4 (leBytes_length 4 qp)]
  rw [take_len_append _ _ 4 (leBytes_length 4 id)]
  rw [take_len_append _ _ 4 (leBytes_length 4 qp)]
  rw [take_len_append _ _ 4 (leBytes_length 4 issm)]
  rw [drop_len_append _ _ 4 (leBytes_length 4 issm)]
  rw [leVal_leBytes 4 id hid4, leVal_leBytes 4 qp hqp4,
      leVal_leBytes 4 issm hissm4, padTrunc_of_le 32 nodeid hn]
  rw [if_pos (by simp [leBytes_length]; omega)]

theorem structRequest_roundtrip (dlid slid dqpn sqpn status length : Nat)
    (pkt : Bytes)
    (h1 : dlid < 2 ^ 16) (h2 : slid < 2 ^ 16) (h3 : dqpn < 2 ^ 32)
    (h4 : sqpn < 2 ^ 32) (h5 : status < 2 ^ 32) (h6 : length < 2 ^ 64) :
    structRequestUnpack
        (structRequestPack dlid slid dqpn sqpn status length pkt) =
      some (dlid, slid, dqpn, sqpn, status, length, padTrunc 256 pkt) := by
  have g1 : dlid < 256 ^ 2 := by calc dlid < 2 ^ 16 := h1
                                   _ = 256 ^ 2 := by norm_num
  have g2 : slid < 256 ^ 2 := by calc slid < 2 ^ 16 := h2
                                   _ = 256 ^ 2 := by norm_num
  have g3 : dqpn < 256 ^ 4 := by calc dqpn < 2 ^ 32 := h3
                                   _ = 256 ^ 4 := by norm_num
  have g4 : sqpn < 256 ^ 4 := by calc sqpn < 2 ^ 32 := h4
                                   _ = 256 ^ 4 := by norm_num
  have g5 : status < 256 ^ 4 := by calc status < 2 ^ 32 := h5
                                     _ = 256 ^ 4 := by norm_num
  have g6 : length < 256 ^ 8 := by calc length < 2 ^ 64 := h6
                                     _ = 256 ^ 8 := by norm_num
  have hlen : (structRequestPack dlid slid dqpn sqpn status length pkt).length
      = 280 := by
    simp [structRequestPack, beBytes_length, padTrunc_length]
  simp only [structRequestUnpack, hlen, if_true, structRequestPack, if_pos,
    List.append_assoc]
  rw [drop_len_append _ _ 2 (beBytes_length 2 dlid)]
  rw [drop_len_append _ _ 2 (beBytes_length 2 slid)]
  rw [drop_len_append _ _ 4 (beBytes_length 4 dqpn)]
  rw [drop_len_append _ _ 4 (beBytes_length 4 sqpn)]
  rw [drop_len_append _ _ 4 (beBytes_length 4 status)]
  rw [drop_len_append _ _ 8 (beBytes_length 8 length)]
  rw [take_len_append _ _ 2 (beBytes_length 2 dlid)]
  rw [take_len_append _ _ 2 (beBytes_length 2 slid)]
  rw [take_len_append _ _ 4 (beBytes_length 4 dqpn)]
  rw [take_len_append _ _ 4 (beBytes_length 4 sqpn)]
  rw [take_len_append _ _ 4 (beBytes_length 4 status)]
  rw [take_len_append _ _ 8 (beBytes_length 8 length)]
  rw [beVal_beBytes 2 dlid g1, beVal_beBytes 2 slid g2, beVal_beBytes 4 dqpn g3,
      beVal_beBytes 4 sqpn g4, beVal_beBytes 4 status g5,
      beVal_beBytes 8 length g6]
  rw [if_pos (by simp [beBytes_length, padTrunc_length])]

/-! ### Claim theorems -/

/-- Claim C3, counterexample: encoding the control envelope with in-range
fields and the 1-byte payload `[9]` (within the 64-byte slot) and decoding
the result does not reproduce the payload byte-for-byte — the decoded
payload slot is the original payload zero-padded to 64 bytes, so the
round-trip law as claimed fails for any payload shorter than the slot. -/
theorem c3_counterexample :
    structCtlUnpack (structCtlPack 1 2 3 1 [9]) ≠ some (1, 2, 3, 1, [9]) := by
  decide

/-- Claim C3 (amended): for each message family with in-range field values
and a payload within the fixed slot size, decoding the encoded buffer
reproduces every integer field exactly, and the decoded payload slot is
the original payload padded with zero bytes to the slot size (64 bytes
control, 32-byte node-id string, 256 bytes data); the payload is
reproduced byte-for-byte exactly when it fills the slot. -/
theorem c3_roundtrip_padded :
    (∀ m c t l : Nat, ∀ d : Bytes, m < 2 ^ 32 → c < 2 ^ 32 → t < 2 ^ 32 →
      l < 2 ^ 32 → d.length ≤ 64 →
      structCtlUnpack (structCtlPack m c t l d) =
        some (m, c, t, l, d ++ List.replicate (64 - d.length) 0)) ∧
    (∀ id qp issm : Nat, ∀ nodeid : Bytes, id < 2 ^ 32 → qp < 2 ^ 32 →
      issm < 2 ^ 32 → nodeid.length ≤ 32 →
      structInfoUnpack (structInfoPack id qp issm nodeid) =
        some (id, qp, issm, nodeid ++ List.replicate (32 - nodeid.length) 0)) ∧
    (∀ dlid slid dqpn sqpn status length : Nat, ∀ pkt : Bytes,
      dlid < 2 ^ 16 → slid < 2 ^ 16 → dqpn < 2 ^ 32 → sqpn < 2 ^ 32 →
      status < 2 ^ 32 → length < 2 ^ 64 → pkt.length ≤ 256 →
      structRequestUnpack
          (structRequestPack dlid slid dqpn sqpn status length pkt) =
        some (dlid, slid, dqpn, sqpn, status, length,
              pkt ++ List.replicate (256 - pkt.length) 0)) := by
  refine ⟨fun m c t l d hm hc ht hl hd =>
            structCtl_roundtrip m c t l d hm hc ht hl hd,
          fun id qp issm nodeid h1 h2 h3 h4 =>
            structInfo_roundtrip id qp issm nodeid h1 h2 h3 h4,
          fun dlid slid dqpn sqpn status length pkt h1 h2 h3 h4 h5 h6 h7 => ?_⟩
  rw [structRequest_roundtrip dlid slid dqpn sqpn status length pkt
        h1 h2 h3 h4 h5 h6,
      padTrunc_of_le 256 pkt h7]

/-- Witness for the amended C3 round-trip at concrete inputs. -/
theorem c3_roundtrip_padded_witness :
    structCtlUnpack (structCtlPack 1 2 3 1 [9]) =
      some (1, 2, 3, 1, [9] ++ List.replicate 63 0) ∧
    structInfoUnpack (structInfoPack 1 2 3 [9]) =
      some (1, 2, 3, [9] ++ List.replicate 31 0) ∧
    structRequestUnpack (structRequestPack 1 2 3 4 5 1 [9]) =
      some (1, 2, 3, 4, 5, 1, [9] ++ List.replicate 255 0) :=
  ⟨c3_roundtrip_padded.1 1 2 3 1 [9] (by norm_num) (by norm_num) (by norm_num)
      (by norm_num) (by norm_num),
   c3_roundtrip_padded.2.1 1 2 3 [9] (by norm_num) (by norm_num) (by norm_num)
      (by norm_num),
   c3_roundtrip_padded.2.2 1 2 3 4 5 1 [9] (by norm_num) (by norm_num)
      (by norm_num) (by norm_num) (by norm_num) (by norm_num) (by norm_num)⟩

/-- Claim C2: a cached-attribute read within 1 second of the cache
timestamp (`now ≤ cache_timestamp + 1`) issues no control call and
returns the cached value with the state unchanged; a read strictly more
than 1 second later (`now > cache_timestamp + 1`) always issues exactly
one GET_PORTINFO control call with the port index as payload, replaces
the entire cached field set from the reply, and stamps the cache
timestamp with `now`. -/
theorem c2_cache_ttl (cx : SimCtx) (st : EndPortSt) (now : Int)
    (f : PortField) (hpid : st.port_id < 256) :
    (now ≤ st.port_info_age + 1 →
      SimEndPort.get cx st now f = (st.port_info.get f, st, [])) ∧
    (st.port_info_age + 1 < now →
      SimEndPort.get cx st now f =
        ((cx.unpackPortInfo (cx.ctl SIM_CTL_GET_PORTINFO [st.port_id])).get f,
         { st with
           port_info :=
             cx.unpackPortInfo (cx.ctl SIM_CTL_GET_PORTINFO [st.port_id]),
           port_info_age := now },
         [⟨SIM_CTL_GET_PORTINFO, [st.port_id]⟩])) := by
  have hmod : st.port_id % 256 = st.port_id := Nat.mod_eq_of_lt hpid
  constructor
  · intro h
    simp [SimEndPort.get, not_lt.mpr h]
  · intro h
    simp [SimEndPort.get, h, hmod]

/-- Witness for C2: a fresh port read at time 0 stays on the cache; a
read at time 5 refreshes through one GET_PORTINFO call. -/
theorem c2_cache_ttl_witness :
    SimEndPort.get cxW (initEndPort 1) 0 PortField.LID =
      ((initEndPort 1).port_info.get PortField.LID, initEndPort 1, []) ∧
    SimEndPort.get cxW (initEndPort 1) 5 PortField.LID =
      ((cxW.unpackPortInfo (cxW.ctl SIM_CTL_GET_PORTINFO [1])).get
          PortField.LID,
       { initEndPort 1 with
         port_info := cxW.unpackPortInfo (cxW.ctl SIM_CTL_GET_PORTINFO [1]),
         port_info_age := 5 },
       [⟨SIM_CTL_GET_PORTINFO, [1]⟩]) :=
  ⟨(c2_cache_ttl cxW (initEndPort 1) 0 PortField.LID (by decide)).1
      (by norm_num [initEndPort]),
   (c2_cache_ttl cxW (initEndPort 1) 5 PortField.LID (by decide)).2
      (by norm_num [initEndPort])⟩

/-- Claim C4, counterexample: with device GUID bytes `[1,...,8]` and port
index 9, the derived interface identifier is `[1,...,7,9]`; its remaining
(leading) 7 bytes are the GUID's first 7 bytes, not the GUID's low
(trailing) 7 bytes as the claim states. -/
theorem c4_counterexample :
    ((SimEndPort.gids cxW [1, 2, 3, 4, 5, 6, 7, 8] (initEndPort 9) 0).1.map
        GID.guid).head? = some [1, 2, 3, 4, 5, 6, 7, 9] ∧
    ¬ ([1, 2, 3, 4, 5, 6, 7, 9].take 7 =
        ([1, 2, 3, 4, 5, 6, 7, 8] : Bytes).drop 1) := by
  decide

/-- Claim C4 (amended): for every 8-byte device GUID and port index below
256, on first computation every derived GID carries the interface
identifier made of the GUID's first (high-order) 7 bytes followed by the
port index as its low (last) byte; if the (possibly refreshed) cached GID
prefix equals the default prefix the result is the single default-prefixed
GID, otherwise the custom-prefixed GID first and the default-prefixed GID
second. -/
theorem c4_gids (cx : SimCtx) (nodeGuid : Bytes) (st : EndPortSt) (now : Int)
    (h8 : nodeGuid.length = 8) (hpid : st.port_id < 256)
    (hnc : st.gidsCache = none) :
    (SimEndPort.gids cx nodeGuid st now).1 =
      (if (SimEndPort.get cx st now PortField.gidPfx).1 = GID_DEFAULT_PFX
       then [⟨GID_DEFAULT_PFX, nodeGuid.take 7 ++ [st.port_id]⟩]
       else [⟨(SimEndPort.get cx st now PortField.gidPfx).1,
              nodeGuid.take 7 ++ [st.port_id]⟩,
             ⟨GID_DEFAULT_PFX, nodeGuid.take 7 ++ [st.port_id]⟩]) ∧
    (nodeGuid.take 7 ++ [st.port_id]).getLast? = some st.port_id ∧
    (nodeGuid.take 7 ++ [st.port_id]).take 7 = nodeGuid.take 7 ∧
    (nodeGuid.take 7 ++ [st.port_id]).length = 8 := by
  have hmod : st.port_id % 256 = st.port_id := Nat.mod_eq_of_lt hpid
  have hlen7 : (nodeGuid.take 7).length = 7 := by
    simp [List.length_take, h8]
  refine ⟨?_, ?_, ?_, ?_⟩
  · simp [SimEndPort.gids, hnc, hmod]
  · exact List.getLast?_concat _
  · exact take_len_append _ _ 7 hlen7
  · simp [hlen7]

/-- Witness for the amended C4 at a concrete GUID and port index (cached
prefix 0, so both the custom- and default-prefixed GIDs appear). -/
theorem c4_gids_witness :
    (SimEndPort.gids cxW [1, 2, 3, 4, 5, 6, 7, 8] (initEndPort 3) 0).1 =
      [⟨0, [1, 2, 3, 4, 5, 6, 7, 3]⟩,
       ⟨GID_DEFAULT_PFX, [1, 2, 3, 4, 5, 6, 7, 3]⟩] := by
  have h := (c4_gids cxW [1, 2, 3, 4, 5, 6, 7, 8] (initEndPort 3) 0
      (by decide) (by decide) rfl).1
  rw [h]
  decide

/-- Every control call issued by a cached-attribute read is a
GET_PORTINFO call. -/
theorem simEndPortGet_calls (cx : SimCtx) (st : EndPortSt) (now : Int)
    (f : PortField) :
    ∀ cc ∈ (SimEndPort.get cx st now f).2.2,
      cc.opcode = SIM_CTL_GET_PORTINFO := by
  intro cc hcc
  unfold SimEndPort.get at hcc
  split at hcc
  · simp only [List.mem_singleton] at hcc
    rw [hcc]
  · simp at hcc

/-- `pkeyIndexOf` finds nothing exactly when the key is absent
(mirroring `list.index` raising `ValueError`). -/
theorem pkeyIndexOf_eq_none (l : List Nat) (k : Nat) :
    pkeyIndexOf l k = none ↔ k ∉ l := by
  induction l with
  | nil => simp [pkeyIndexOf]
  | cons x xs ih =>
    by_cases hx : x = k
    · subst hx
      simp [pkeyIndexOf]
    · rw [List.mem_cons, not_or]
      cases hpk : pkeyIndexOf xs k with
      | none =>
        constructor
        · intro _
          exact ⟨fun he => hx he.symm, ih.mp hpk⟩
        · intro _
          simp [pkeyIndexOf, hx, hpk]
      | some i =>
        have hmem : k ∈ xs := by
          by_contra hm
          rw [ih.mpr hm] at hpk
          exact Option.noConfusion hpk
        simp [pkeyIndexOf, hx, hpk, hmem]

/-- A memoized administrative path is returned as-is with no control
calls. -/
theorem sa_path_memoized (cx : SimCtx) (st : EndPortSt) (now : Int)
    (p : IBPath) (h : st.cachedSaPath = some p) :
    SimEndPort.sa_path cx st now = .ok (p, st, []) := by
  simp [SimEndPort.sa_path, h]

/-- Inversion of a successful first administrative-path computation: the
resulting state memoizes exactly the returned path, the resolved pkey
index is the one recorded in the path, and every control call issued on
the way is a GET_PORTINFO call. -/
theorem sa_path_ok_inv (cx : SimCtx) (st : EndPortSt) (now : Int)
    (p : IBPath) (st1 : EndPortSt) (calls : List CtlCall)
    (hnc : st.cachedSaPath = none)
    (h : SimEndPort.sa_path cx st now = .ok (p, st1, calls)) :
    st1.cachedSaPath = some p ∧
    (pkeyIndexOf st.pkeys PKEY_DEFAULT).orElse
        (fun _ => pkeyIndexOf st.pkeys PKEY_PARTIAL_DEFAULT) =
      some p.pkey_index ∧
    (∀ cc ∈ calls, cc.opcode = SIM_CTL_GET_PORTINFO) := by
  unfold SimEndPort.sa_path at h
  rw [hnc] at h
  split at h
  · rename_i q heq
    exact Option.noConfusion heq
  · split at h
    · exact absurd h (by simp)
    · rename_i idx hidx
      simp only [Except.ok.injEq, Prod.mk.injEq] at h
      obtain ⟨hp, hst, hcalls⟩ := h
      refine ⟨?_, ?_, ?_⟩
      · rw [← hst, ← hp]
      · rw [hidx, ← hp]
      · intro cc hcc
        rw [← hcalls] at hcc
        simp only [List.mem_append] at hcc
        rcases hcc with (hcc | hcc) | hcc <;>
          exact simEndPortGet_calls cx _ now _ cc hcc

/-- The administrative-path lookup fails exactly when the combined pkey
search comes up empty. -/
theorem sa_path_error_iff (cx : SimCtx) (st : EndPortSt) (now : Int)
    (hnc : st.cachedSaPath = none) :
    SimEndPort.sa_path cx st now = .error .configurationError ↔
      (pkeyIndexOf st.pkeys PKEY_DEFAULT).orElse
        (fun _ => pkeyIndexOf st.pkeys PKEY_PARTIAL_DEFAULT) = none := by
  unfold SimEndPort.sa_path
  rw [hnc]
  cases ho : (pkeyIndexOf st.pkeys PKEY_DEFAULT).orElse
      (fun _ => pkeyIndexOf st.pkeys PKEY_PARTIAL_DEFAULT) with
  | none => simp
  | some i => simp

/-- `Option.orElse` is empty exactly when both alternatives are. -/
theorem orElse_eq_none_iff (a : Option Nat) (f : Unit → Option Nat) :
    a.orElse f = none ↔ a = none ∧ f () = none := by
  cases a <;> simp [Option.orElse]

/-- Claim C7: with no memoized path, the administrative-path lookup
raises the configuration error exactly when neither well-known partition
key occurs in the port's key list; on success the path is memoized and
every later access returns the memoized path with no further control
calls; when the full-membership key is present its index is the one
used (it is tried first). -/
theorem c7_sa_path (cx : SimCtx) (st : EndPortSt) (now : Int)
    (hnc : st.cachedSaPath = none) :
    (SimEndPort.sa_path cx st now = .error .configurationError ↔
      PKEY_DEFAULT ∉ st.pkeys ∧ PKEY_PARTIAL_DEFAULT ∉ st.pkeys) ∧
    (∀ p st1 calls, SimEndPort.sa_path cx st now = .ok (p, st1, calls) →
      ∀ cx2 now2, SimEndPort.sa_path cx2 st1 now2 = .ok (p, st1, [])) ∧
    (∀ p st1 calls, PKEY_DEFAULT ∈ st.pkeys →
      SimEndPort.sa_path cx st now = .ok (p, st1, calls) →
      pkeyIndexOf st.pkeys PKEY_DEFAULT = some p.pkey_index) := by
  refine ⟨?_, ?_, ?_⟩
  · rw [sa_path_error_iff cx st now hnc, orElse_eq_none_iff,
        pkeyIndexOf_eq_none, pkeyIndexOf_eq_none]
  · intro p st1 calls h cx2 now2
    exact sa_path_memoized cx2 st1 now2 p
      (sa_path_ok_inv cx st now p st1 calls hnc h).1
  · intro p st1 calls hmem h
    obtain ⟨i, hi⟩ := Option.ne_none_iff_exists'.mp
      (fun hn => (pkeyIndexOf_eq_none st.pkeys PKEY_DEFAULT).mp hn hmem)
    have horelse := (sa_path_ok_inv cx st now p st1 calls hnc h).2.1
    rw [hi] at horelse
    simp only [Option.orElse] at horelse
    rw [hi, horelse]

/-- Witness for C7 at a freshly constructed port (the key list holds the
full-membership key, so the lookup does not fail). -/
theorem c7_sa_path_witness :
    SimEndPort.sa_path cxW (initEndPort 2) 0 = .error .configurationError ↔
      PKEY_DEFAULT ∉ (initEndPort 2).pkeys ∧
      PKEY_PARTIAL_DEFAULT ∉ (initEndPort 2).pkeys :=
  (c7_sa_path cxW (initEndPort 2) 0 rfl).1

/-- Claim C9: a freshly constructed port carries the constant key list
`(0xFFFF,)`, which is never fetched from the simulator: the port model
never issues a GET_PKEYS control call (attribute reads issue only
GET_PORTINFO); `pkey_index` on the full-membership default key returns
index 0; the administrative-path error branch is unreachable on an
unmodified port. -/
theorem c9_pkeys_constant (pid : Nat) (cx : SimCtx) (now : Int) :
    (initEndPort pid).pkeys = [0xFFFF] ∧
    pkeyIndexOf (initEndPort pid).pkeys PKEY_DEFAULT = some 0 ∧
    (∀ f cc, cc ∈ (SimEndPort.get cx (initEndPort pid) now f).2.2 →
      cc.opcode ≠ SIM_CTL_GET_PKEYS) ∧
    SimEndPort.sa_path cx (initEndPort pid) now ≠
      .error .configurationError ∧
    (∀ p st1 calls, SimEndPort.sa_path cx (initEndPort pid) now =
        .ok (p, st1, calls) →
      ∀ cc ∈ calls, cc.opcode ≠ SIM_CTL_GET_PKEYS) := by
  have hpk : (initEndPort pid).pkeys = [0xFFFF] := rfl
  refine ⟨rfl, by rw [hpk]; decide, ?_, ?_, ?_⟩
  · intro f cc hcc
    rw [simEndPortGet_calls cx (initEndPort pid) now f cc hcc]
    decide
  · intro hcon
    rw [sa_path_error_iff cx (initEndPort pid) now rfl, hpk] at hcon
    exact absurd hcon (by decide)
  · intro p st1 calls h cc hcc
    rw [(sa_path_ok_inv cx (initEndPort pid) now p st1 calls rfl h).2.2 cc hcc]
    decide

/-- Witness for C9 at port index 1. -/
theorem c9_pkeys_constant_witness :
    (initEndPort 1).pkeys = [0xFFFF] ∧
    pkeyIndexOf (initEndPort 1).pkeys PKEY_DEFAULT = some 0 ∧
    SimEndPort.sa_path cxW (initEndPort 1) 0 ≠ .error .configurationError :=
  ⟨(c9_pkeys_constant 1 cxW 0).1, (c9_pkeys_constant 1 cxW 0).2.1,
   (c9_pkeys_constant 1 cxW 0).2.2.2.1⟩

/-- Claim C10: every data envelope built by `sendto` carries status 0 and
a payload-length field equal to the supplied buffer's length; the LID and
queue-pair fields are copied from the path; and the transactor state is
unchanged by the send. -/
theorem c10_sendto (st : SimUMADSt) (buf : Bytes) (path : IBPath)
    (h1 : path.DLID < 2 ^ 16) (h2 : path.SLID < 2 ^ 16)
    (h3 : path.dqpn < 2 ^ 32) (h4 : path.sqpn < 2 ^ 32)
    (h5 : buf.length < 2 ^ 64) :
    (SimUMAD.sendto st buf path).1 = st ∧
    structRequestUnpack (SimUMAD.sendto st buf path).2 =
      some (path.DLID, path.SLID, path.dqpn, path.sqpn, 0, buf.length,
            padTrunc 256 buf) :=
  ⟨rfl, structRequest_roundtrip path.DLID path.SLID path.dqpn path.sqpn 0
      buf.length buf h1 h2 h3 h4 (by norm_num) h5⟩

/-- Witness for C10 at a concrete buffer and path. -/
theorem c10_sendto_witness :
    (SimUMAD.sendto ⟨0⟩ [9] pathW).1 = (⟨0⟩ : SimUMADSt) ∧
    structRequestUnpack (SimUMAD.sendto ⟨0⟩ [9] pathW).2 =
      some (pathW.DLID, pathW.SLID, pathW.dqpn, pathW.sqpn, 0,
            ([9] : Bytes).length, padTrunc 256 [9]) :=
  c10_sendto ⟨0⟩ [9] pathW (by decide) (by decide) (by decide) (by decide)
    (by decide)

/-- Claim C6 (amended): `receive(deadline)` returns "no data" (not an
error) when the remaining time is non-positive or the poll yields
nothing; otherwise it decodes the datagram and returns its 256-byte
payload slot together with a path carrying the envelope's destination
LID, source LID and both queue-pair numbers; the envelope's status and
payload-length fields are decoded but discarded, not surfaced. -/
theorem c6_recvfrom (env : ExecEnv) (wakeat : Int) (st : ExecSt) :
    ((wakeat ≤ env.clock st.ci ∨ env.poll st.pi = none) →
      (SimUMAD.recvfrom env wakeat st).1 = .ok none) ∧
    (∀ resp dlid slid dqpn sqpn status length pkt,
      env.clock st.ci < wakeat →
      env.poll st.pi = some resp →
      structRequestUnpack resp =
        some (dlid, slid, dqpn, sqpn, status, length, pkt) →
      (SimUMAD.recvfrom env wakeat st).1 =
        .ok (some (pkt,
          { DLID := dlid, SLID := slid, DQPN := dqpn, SQPN := sqpn }))) := by
  constructor
  · rintro (h | h)
    · have hc : wakeat - env.clock st.ci ≤ 0 := sub_nonpos.mpr h
      simp [SimUMAD.recvfrom, hc]
    · by_cases hc : wakeat - env.clock st.ci ≤ 0
      · simp [SimUMAD.recvfrom, hc]
      · simp [SimUMAD.recvfrom, hc, h]
  · intro resp dlid slid dqpn sqpn status length pkt hc hp hu
    have hcn : ¬ wakeat - env.clock st.ci ≤ 0 :=
      not_le.mpr (sub_pos.mpr hc)
    simp [SimUMAD.recvfrom, hcn, hp, hu]

/-- Witness for the amended C6: a timed-out receive and a successful
decoded receive. -/
theorem c6_recvfrom_witness :
    (SimUMAD.recvfrom envSilent 0 ⟨0, 0, []⟩).1 = .ok none ∧
    (SimUMAD.recvfrom (envStatus 0) 10 ⟨0, 0, []⟩).1 =
      .ok (some (padTrunc 256 [9],
        { DLID := 1, SLID := 2, DQPN := 3, SQPN := 4 })) :=
  ⟨(c6_recvfrom envSilent 0 ⟨0, 0, []⟩).1 (Or.inr rfl),
   (c6_recvfrom (envStatus 0) 10 ⟨0, 0, []⟩).2
     (structRequestPack 1 2 3 4 0 1 [9]) 1 2 3 4 0 1 (padTrunc 256 [9])
     (by decide) rfl
     (structRequest_roundtrip 1 2 3 4 0 1 [9] (by norm_num) (by norm_num)
       (by norm_num) (by norm_num) (by norm_num) (by norm_num))⟩

set_option maxRecDepth 8192 in
/-- Claim C6, counterexample: two received envelopes that differ only in
their status field (0 vs 5) produce identical `recvfrom` results, so the
status field is not surfaced to the caller. -/
theorem c6_counterexample :
    structRequestPack 1 2 3 4 0 1 [9] ≠ structRequestPack 1 2 3 4 5 1 [9] ∧
    SimUMAD.recvfrom (envStatus 0) 10 ⟨0, 0, []⟩ =
      SimUMAD.recvfrom (envStatus 5) 10 ⟨0, 0, []⟩ := by
  exact ⟨by decide, rfl⟩

/-- A receive attempt against an environment whose poll never yields data
returns no data (whether by timeout or by empty poll): the clock index
advances by one, the receive-attempt event is recorded, the trace is
otherwise untouched. -/
theorem recvfrom_noData (env : ExecEnv) (h : ∀ n, env.poll n = none)
    (wakeat : Int) (st : ExecSt) :
    ∃ k, SimUMAD.recvfrom env wakeat st =
      (.ok none, ⟨st.ci + 1, k, st.tr ++ [Ev.recvAt wakeat]⟩) := by
  unfold SimUMAD.recvfrom
  by_cases hc : wakeat - env.clock st.ci ≤ 0
  · exact ⟨st.pi, by rw [if_pos hc]⟩
  · refine ⟨st.pi + 1, ?_⟩
    rw [if_neg hc, h]

/-- The retry loop with a silent (never-replying) environment returns "no
reply" and extends the trace by exactly the expected pattern: one receive
attempt per iteration and, before each of the `r` retries, a resend
followed by a deadline recomputed from the clock value read right then. -/
theorem executeLoop_noReply (env : ExecEnv) (cx : TransCtx) (buf : Bytes)
    (path : IBPath) (rmatch : Nat) (h : ∀ n, env.poll n = none) :
    ∀ r fuel, r < fuel → ∀ expire st,
      (executeLoop env cx buf path rmatch fuel r expire st).1 = .ok none ∧
      (executeLoop env cx buf path rmatch fuel r expire st).2.tr =
        st.tr ++ noReplyTrace path.mad_timeout env.clock
          (sendtoReq buf path) r st.ci expire := by
  intro r
  induction r with
  | zero =>
    intro fuel hf expire st
    obtain ⟨f, rfl⟩ : ∃ f, fuel = f + 1 := ⟨fuel - 1, by omega⟩
    obtain ⟨k, hk⟩ := recvfrom_noData env h expire st
    have hstep : executeLoop env cx buf path rmatch (f + 1) 0 expire st =
        (.ok none, ⟨st.ci + 1, k, st.tr ++ [Ev.recvAt expire]⟩) := by
      simp only [executeLoop]
      rw [hk]
      rfl
    rw [hstep]
    exact ⟨rfl, rfl⟩
  | succ r ih =>
    intro fuel hf expire st
    obtain ⟨f, rfl⟩ : ∃ f, fuel = f + 1 := ⟨fuel - 1, by omega⟩
    obtain ⟨k, hk⟩ := recvfrom_noData env h expire st
    have hstep : executeLoop env cx buf path rmatch (f + 1) (r + 1) expire st
        = executeLoop env cx buf path rmatch f r
            (path.mad_timeout + env.clock (st.ci + 1))
            ⟨st.ci + 2, k,
             st.tr ++ [Ev.recvAt expire] ++ [Ev.send (sendtoReq buf path)] ++
               [Ev.setExpire (env.clock (st.ci + 1))
                 (path.mad_timeout + env.clock (st.ci + 1))]⟩ := by
      simp only [executeLoop]
      rw [hk]
      rfl
    rw [hstep]
    obtain ⟨h1, h2⟩ := ih f (by omega)
      (path.mad_timeout + env.clock (st.ci + 1))
      ⟨st.ci + 2, k,
       st.tr ++ [Ev.recvAt expire] ++ [Ev.send (sendtoReq buf path)] ++
         [Ev.setExpire (env.clock (st.ci + 1))
           (path.mad_timeout + env.clock (st.ci + 1))]⟩
    refine ⟨h1, ?_⟩
    rw [h2]
    simp [noReplyTrace, List.append_assoc]

/-- Send counting distributes over trace concatenation. -/
theorem countSends_append (a b : List Ev) :
    countSends (a ++ b) = countSends a + countSends b := by
  simp [countSends, List.countP_append]

/-- The no-reply loop trace contains exactly one send per retry. -/
theorem countSends_noReplyTrace (T : Int) (clock : Nat → Int)
    (req : Bytes) :
    ∀ r i e, countSends (noReplyTrace T clock req r i e) = r := by
  intro r
  induction r with
  | zero =>
    intro i e
    simp [noReplyTrace, countSends]
  | succ r ih =>
    intro i e
    have hr := ih (i + 2) (T + clock (i + 1))
    simp [noReplyTrace, countSends, List.countP_cons] at hr ⊢
    omega

/-- Every deadline recorded in the no-reply loop trace is the path
timeout added to the clock value read at that moment. -/
theorem noReplyTrace_setExpire (T : Int) (clock : Nat → Int)
    (req : Bytes) :
    ∀ r i e now e2, Ev.setExpire now e2 ∈ noReplyTrace T clock req r i e →
      e2 = T + now := by
  intro r
  induction r with
  | zero =>
    intro i e now e2 hmem
    simp [noReplyTrace] at hmem
  | succ r ih =>
    intro i e now e2 hmem
    simp only [noReplyTrace, List.mem_cons] at hmem
    rcases hmem with h1 | h1 | h1 | h1
    · exact absurd h1 (by simp)
    · exact absurd h1 (by simp)
    · injection h1 with hn he
      rw [he, hn]
    · exact ih _ _ now e2 h1

/-- Claim C1: with a data socket that never yields a datagram before any
deadline, `execute` (not send-only) with retry budget `r` performs
exactly `r + 1` send attempts (the initial send plus `r` resends),
recomputes the deadline from the current clock after each resend, and
returns "no reply"; the trace is exactly the initial send and deadline
followed by the no-reply pattern. -/
theorem c1_execute_no_reply (env : ExecEnv) (cx : TransCtx) (buf : Bytes)
    (path : IBPath) (fuel : Nat) (h : ∀ n, env.poll n = none)
    (hf : path.retries < fuel) :
    (SimUMAD.execute env cx buf path false fuel ⟨0, 0, []⟩).1 = .ok none ∧
    countSends
        (SimUMAD.execute env cx buf path false fuel ⟨0, 0, []⟩).2.tr =
      path.retries + 1 ∧
    (∀ now e, Ev.setExpire now e ∈
        (SimUMAD.execute env cx buf path false fuel ⟨0, 0, []⟩).2.tr →
      e = path.mad_timeout + now) ∧
    (SimUMAD.execute env cx buf path false fuel ⟨0, 0, []⟩).2.tr =
      [Ev.send (sendtoReq buf path),
       Ev.setExpire (env.clock 0) (path.mad_timeout + env.clock 0)] ++
        noReplyTrace path.mad_timeout env.clock (sendtoReq buf path)
          path.retries 1 (path.mad_timeout + env.clock 0) := by
  have hexec : SimUMAD.execute env cx buf path false fuel ⟨0, 0, []⟩ =
      executeLoop env cx buf path (cx.replyKey buf) fuel path.retries
        (path.mad_timeout + env.clock 0)
        ⟨1, 0, [Ev.send (sendtoReq buf path),
                Ev.setExpire (env.clock 0)
                  (path.mad_timeout + env.clock 0)]⟩ := rfl
  obtain ⟨h1, h2⟩ := executeLoop_noReply env cx buf path (cx.replyKey buf) h
    path.retries fuel hf (path.mad_timeout + env.clock 0)
    ⟨1, 0, [Ev.send (sendtoReq buf path),
            Ev.setExpire (env.clock 0) (path.mad_timeout + env.clock 0)]⟩
  rw [hexec]
  refine ⟨h1, ?_, ?_, h2⟩
  · rw [h2, countSends_append, countSends_noReplyTrace]
    simp [countSends, List.countP_cons]
    omega
  · intro now e hmem
    rw [h2] at hmem
    simp only [List.mem_append, List.mem_cons, List.mem_singleton] at hmem
    rcases hmem with (h3 | h3) | h3
    · exact absurd h3 (by simp)
    · rcases h3 with h3 | h3
      · injection h3 with hn he
        rw [he, hn]
      · exact absurd h3 (by simp)
    · exact noReplyTrace_setExpire _ _ _ _ _ _ now e h3

/-- Witness for C1: retry budget 2 against a silent environment yields
no reply after exactly 3 send attempts. -/
theorem c1_execute_no_reply_witness :
    (SimUMAD.execute envSilent cxTransNone [1] pathW false 3
        ⟨0, 0, []⟩).1 = .ok none ∧
    countSends (SimUMAD.execute envSilent cxTransNone [1] pathW false 3
        ⟨0, 0, []⟩).2.tr = 3 :=
  ⟨(c1_execute_no_reply envSilent cxTransNone [1] pathW 3 (fun _ => rfl)
      (by decide)).1,
   (c1_execute_no_reply envSilent cxTransNone [1] pathW 3 (fun _ => rfl)
      (by decide)).2.1⟩

/-- Claim C5: an `execute` that, before its deadline, first receives a
datagram whose match key differs from the expected key and then one whose
match key equals it, returns the matching (payload, path) pair; the trace
hook (installed) fires exactly once, with the "unexpected" classification
and the mismatched payload; the mismatched datagram consumes no retry
(only the one initial send occurs) and the deadline is unchanged (both
receive attempts use the same wakeup time). -/
theorem c5_unexpected_then_match (env : ExecEnv) (cx : TransCtx)
    (buf : Bytes) (path : IBPath) (f : Nat) (g1 g2 pkt1 pkt2 : Bytes)
    (d1 s1 q1 p1 a1 l1 d2 s2 q2 p2 a2 l2 : Nat)
    (hp0 : env.poll 0 = some g1) (hp1 : env.poll 1 = some g2)
    (hg1 : structRequestUnpack g1 = some (d1, s1, q1, p1, a1, l1, pkt1))
    (hg2 : structRequestUnpack g2 = some (d2, s2, q2, p2, a2, l2, pkt2))
    (hk1 : cx.matchKey pkt1 ≠ cx.replyKey buf)
    (hk2 : cx.matchKey pkt2 = cx.replyKey buf)
    (ht : cx.hasTrace = true)
    (hc1 : env.clock 1 < path.mad_timeout + env.clock 0)
    (hc2 : env.clock 2 < path.mad_timeout + env.clock 0) :
    SimUMAD.execute env cx buf path false (f + 1 + 1) ⟨0, 0, []⟩ =
      (.ok (some (pkt2,
         { DLID := d2, SLID := s2, DQPN := q2, SQPN := p2 })),
       ⟨3, 2,
        [Ev.send (sendtoReq buf path),
         Ev.setExpire (env.clock 0) (path.mad_timeout + env.clock 0),
         Ev.recvAt (path.mad_timeout + env.clock 0),
         Ev.traceHook TRACE_UNEXPECTED pkt1,
         Ev.recvAt (path.mad_timeout + env.clock 0)]⟩) ∧
    countSends (SimUMAD.execute env cx buf path false (f + 1 + 1)
        ⟨0, 0, []⟩).2.tr = 1 ∧
    countHooks (SimUMAD.execute env cx buf path false (f + 1 + 1)
        ⟨0, 0, []⟩).2.tr = 1 := by
  have hcn1 : ¬ (path.mad_timeout + env.clock 0 - env.clock 1 ≤ 0) := by
    omega
  have hcn2 : ¬ (path.mad_timeout + env.clock 0 - env.clock 2 ≤ 0) := by
    omega
  have hk1f : (cx.replyKey buf = cx.matchKey pkt1) = False :=
    eq_false fun hh => hk1 hh.symm
  have hk2t : (cx.replyKey buf = cx.matchKey pkt2) = True :=
    eq_true hk2.symm
  have hr1 : SimUMAD.recvfrom env (path.mad_timeout + env.clock 0)
      ⟨1, 0, [Ev.send (sendtoReq buf path),
              Ev.setExpire (env.clock 0)
                (path.mad_timeout + env.clock 0)]⟩ =
      (.ok (some (pkt1, { DLID := d1, SLID := s1, DQPN := q1, SQPN := p1 })),
       ⟨2, 1, [Ev.send (sendtoReq buf path),
               Ev.setExpire (env.clock 0) (path.mad_timeout + env.clock 0),
               Ev.recvAt (path.mad_timeout + env.clock 0)]⟩) := by
    simp [SimUMAD.recvfrom, hcn1, hp0, hg1]
  have hr2 : SimUMAD.recvfrom env (path.mad_timeout + env.clock 0)
      ⟨2, 1, [Ev.send (sendtoReq buf path),
              Ev.setExpire (env.clock 0) (path.mad_timeout + env.clock 0),
              Ev.recvAt (path.mad_timeout + env.clock 0),
              Ev.traceHook TRACE_UNEXPECTED pkt1]⟩ =
      (.ok (some (pkt2, { DLID := d2, SLID := s2, DQPN := q2, SQPN := p2 })),
       ⟨3, 2, [Ev.send (sendtoReq buf path),
               Ev.setExpire (env.clock 0) (path.mad_timeout + env.clock 0),
               Ev.recvAt (path.mad_timeout + env.clock 0),
               Ev.traceHook TRACE_UNEXPECTED pkt1,
               Ev.recvAt (path.mad_timeout + env.clock 0)]⟩) := by
    simp [SimUMAD.recvfrom, hcn2, hp1, hg2]
  have hstart : SimUMAD.execute env cx buf path false (f + 1 + 1)
      ⟨0, 0, []⟩ =
      executeLoop env cx buf path (cx.replyKey buf) (f + 1 + 1) path.retries
        (path.mad_timeout + env.clock 0)
        ⟨1, 0, [Ev.send (sendtoReq buf path),
                Ev.setExpire (env.clock 0)
                  (path.mad_timeout + env.clock 0)]⟩ := rfl
  have hmain : SimUMAD.execute env cx buf path false (f + 1 + 1)
      ⟨0, 0, []⟩ =
      (.ok (some (pkt2,
         { DLID := d2, SLID := s2, DQPN := q2, SQPN := p2 })),
       ⟨3, 2,
        [Ev.send (sendtoReq buf path),
         Ev.setExpire (env.clock 0) (path.mad_timeout + env.clock 0),
         Ev.recvAt (path.mad_timeout + env.clock 0),
         Ev.traceHook TRACE_UNEXPECTED pkt1,
         Ev.recvAt (path.mad_timeout + env.clock 0)]⟩) := by
    rw [hstart]
    simp only [executeLoop, hr1, hk1f, if_false, ht, if_true,
      List.append_assoc, List.cons_append, List.nil_append,
      List.singleton_append]
    simp only [hr2, hk2t, if_true]
  exact ⟨hmain, by rw [hmain]; rfl, by rw [hmain]; rfl⟩

set_option maxRecDepth 8192 in
/-- Witness for C5: concrete environment delivering a payload keyed 5
(mismatch) and then one keyed 7 (match, reply key 7). -/
theorem c5_unexpected_then_match_witness :
    SimUMAD.execute envTwo cxTrans [1] pathW false 2 ⟨0, 0, []⟩ =
      (.ok (some (padTrunc 256 [7],
         { DLID := 1, SLID := 2, DQPN := 3, SQPN := 4 })),
       ⟨3, 2,
        [Ev.send (sendtoReq [1] pathW),
         Ev.setExpire (envTwo.clock 0) (pathW.mad_timeout + envTwo.clock 0),
         Ev.recvAt (pathW.mad_timeout + envTwo.clock 0),
         Ev.traceHook TRACE_UNEXPECTED (padTrunc 256 [5]),
         Ev.recvAt (pathW.mad_timeout + envTwo.clock 0)]⟩) ∧
    countSends (SimUMAD.execute envTwo cxTrans [1] pathW false 2
        ⟨0, 0, []⟩).2.tr = 1 ∧
    countHooks (SimUMAD.execute envTwo cxTrans [1] pathW false 2
        ⟨0, 0, []⟩).2.tr = 1 :=
  c5_unexpected_then_match envTwo cxTrans [1] pathW 0
    (structRequestPack 1 2 3 4 0 1 [5]) (structRequestPack 1 2 3 4 0 1 [7])
    (padTrunc 256 [5]) (padTrunc 256 [7]) 1 2 3 4 0 1 1 2 3 4 0 1
    rfl rfl
    (structRequest_roundtrip 1 2 3 4 0 1 [5] (by norm_num) (by norm_num)
      (by norm_num) (by norm_num) (by norm_num) (by norm_num))
    (structRequest_roundtrip 1 2 3 4 0 1 [7] (by norm_num) (by norm_num)
      (by norm_num) (by norm_num) (by norm_num) (by norm_num))
    (by decide) (by decide) rfl (by decide) (by decide)
